import Mathlib

/-!
Verification of the swarm-autoscale scaling core (src/main.py).

The embedding mirrors the three functions of the source, with the Docker
client modelled as an environment mapping a service name to its state
(labels and current replica count), and every orchestrator interaction
recorded in an explicit event trace:

- get_service_labels   -> getServiceLabels
- can_autoscale        -> canAutoscale
- scale_service        -> scaleService
- scale_service_linear -> scaleServiceLinear

Python int(...) applied to the maximum-replica label is modelled by
pyIntParse (ASCII digits and whitespace; optional sign; single
underscores between digits). Python ValueError is split into the two
distinct raise sites of the source, invalidInput and policyParse, which
the source distinguishes by message.
-/

namespace SwarmAutoscale

/-- Whitespace accepted around a Python integer literal (ASCII part). -/
def isPySpace (c : Char) : Bool :=
  c = ' ' || c = '\t' || c = '\n' || c = '\r' || c = Char.ofNat 11 || c = Char.ofNat 12

/-- Continuation of a digit run after at least one digit has been read:
further digits, with single underscores allowed only between digits. -/
def pyDigitsAux : List Char → Nat → Option Nat
  | [], acc => some acc
  | '_' :: c :: rest, acc =>
      if c.isDigit then pyDigitsAux rest (acc * 10 + (c.toNat - 48)) else none
  | '_' :: [], _ => none
  | c :: rest, acc =>
      if c.isDigit then pyDigitsAux rest (acc * 10 + (c.toNat - 48)) else none

/-- Nonempty digit run; the first character must be a digit. -/
def pyDigits : List Char → Option Nat
  | [] => none
  | c :: rest => if c.isDigit then pyDigitsAux rest (c.toNat - 48) else none

/-- Strip leading and trailing whitespace. -/
def pyStrip (s : List Char) : List Char :=
  ((s.dropWhile isPySpace).reverse.dropWhile isPySpace).reverse

/-- Model of Python int(str): optional surrounding whitespace, an optional
sign, then a nonempty digit run with single underscores between digits.
Returns none exactly when Python int raises ValueError. -/
def pyIntParse (s : String) : Option Int :=
  match pyStrip s.data with
  | '+' :: rest => (pyDigits rest).map (fun n => (n : Int))
  | '-' :: rest => (pyDigits rest).map (fun n => -(n : Int))
  | l => (pyDigits l).map (fun n => (n : Int))

/-- State of one Docker service: its label map (service.attrs Spec Labels)
and its current replica count (Spec Mode Replicated Replicas). -/
structure ServiceState where
  labels : List (String × String)
  replicas : Int
deriving DecidableEq

/-- The Docker daemon as seen through the client: a partial map from
service name to service state. -/
abbrev Env := String → Option ServiceState

/-- Orchestrator operations observable at the Docker client boundary. -/
inductive Ev
  | getService (svc : String)
  | writeReplicas (svc : String) (n : Int)
deriving DecidableEq

/-- True on the single replica-count write operation. -/
def Ev.isWrite : Ev → Bool
  | .writeReplicas _ _ => true
  | .getService _ => false

/-- Errors of the source, one constructor per kind: ValueError raised on
input validation, ValueError raised on maximum-label parse failure, and
docker.errors.NotFound. -/
inductive Err
  | invalidInput (msg : String)
  | policyParse (msg : String)
  | notFound
deriving DecidableEq

/-- Environment with a single service. -/
def mkEnv (svc : String) (st : ServiceState) : Env :=
  fun s => if s = svc then some st else none

/-- Replica count visible in the orchestrator for a service name. -/
def replicasOf (env : Env) (svc : String) : Option Int :=
  (env svc).map ServiceState.replicas

/-- Effect of service_obj.update(mode=...with_replicas(r)) on the daemon. -/
def setReplicas (env : Env) (svc : String) (r : Int) : Env :=
  fun s => if s = svc then (env s).map (fun st => { st with replicas := r }) else env s

/-- Embedding of get_service_labels: reject an empty name before any
client call, then fetch the service and return its labels. -/
def getServiceLabels (env : Env) (service : String) :
    Except Err (List (String × String)) × List Ev :=
  if service = "" then (.error (.invalidInput "Service name not provided"), [])
  else
    match env service with
    | none => (.error .notFound, [.getService service])
    | some st => (.ok st.labels, [.getService service])

/-- Embedding of can_autoscale: empty-name check, label fetch, enable-flag
check, maximum-label falsy check, int parse, replica read and bound
comparison, in the order of the source. -/
def canAutoscale (env : Env) (service : String) : Except Err Bool × List Ev :=
  if service = "" then (.error (.invalidInput "Service name not provided"), [])
  else
    match getServiceLabels env service with
    | (.error e, tr) => (.error e, tr)
    | (.ok labels, tr) =>
      if labels.lookup "swarm.autoscaler" = some "true" then
        match labels.lookup "swarm.autoscaler.maximum" with
        | none => (.ok true, tr)
        | some raw =>
          if raw = "" then (.ok true, tr)
          else
            match pyIntParse raw with
            | none => (.error (.policyParse "Invalid value for maximum allowed replicas"), tr)
            | some m =>
              match env service with
              | none => (.error .notFound, tr ++ [.getService service])
              | some st =>
                (.ok (decide (st.replicas < m)), tr ++ [.getService service])
      else (.ok false, tr)

/-- Result of a scaling call: ok true means the service was scaled, ok
false a clean denial (log I003), error a raised exception. The daemon
state after the call and the event trace are returned alongside. -/
structure ScaleOutcome where
  result : Except Err Bool
  env : Env
  trace : List Ev

/-- Embedding of scale_service: validate name and replicas (Python falsy
checks), run the permission check, and on permission fetch the service
and write the new replica count. -/
def scaleService (env : Env) (service : String) (replicas : Int) : ScaleOutcome :=
  if service = "" then ⟨.error (.invalidInput "Service name not provided"), env, []⟩
  else if replicas = 0 then ⟨.error (.invalidInput "Number of replicas not provided"), env, []⟩
  else
    match canAutoscale env service with
    | (.error e, tr) => ⟨.error e, env, tr⟩
    | (.ok false, tr) => ⟨.ok false, env, tr⟩
    | (.ok true, tr) =>
      match env service with
      | none => ⟨.error .notFound, env, tr ++ [.getService service]⟩
      | some _ =>
        ⟨.ok true, setReplicas env service replicas,
          tr ++ [.getService service, .writeReplicas service replicas]⟩

/-- Embedding of scale_service_linear: validate name and action for
emptiness, read the current replica count, then branch on the action and
delegate to scale_service with current plus or minus one; an action other
than up or down is rejected only after the read. -/
def scaleServiceLinear (env : Env) (service : String) (action : String) : ScaleOutcome :=
  if service = "" then ⟨.error (.invalidInput "Service name not provided"), env, []⟩
  else if action = "" then ⟨.error (.invalidInput "Scaling action not provided"), env, []⟩
  else
    match env service with
    | none => ⟨.error .notFound, env, [.getService service]⟩
    | some st =>
      if action = "up" then
        let o := scaleService env service (st.replicas + 1)
        ⟨o.result, o.env, .getService service :: o.trace⟩
      else if action = "down" then
        let o := scaleService env service (st.replicas - 1)
        ⟨o.result, o.env, .getService service :: o.trace⟩
      else
        ⟨.error (.invalidInput "Invalid scaling action"), env, [.getService service]⟩

instance {ε α : Type} [DecidableEq ε] [DecidableEq α] : DecidableEq (Except ε α) := fun x y =>
  match x, y with
  | .error e, .error f => decidable_of_iff (e = f) (by simp)
  | .error _, .ok _ => isFalse (by simp)
  | .ok _, .error _ => isFalse (by simp)
  | .ok a, .ok b => decidable_of_iff (a = b) (by simp)

/-- Pure decision of can_autoscale on the state of an existing service:
the value the full evaluation returns once the service has been fetched. -/
def decideScale (st : ServiceState) : Except Err Bool :=
  if st.labels.lookup "swarm.autoscaler" = some "true" then
    match st.labels.lookup "swarm.autoscaler.maximum" with
    | none => .ok true
    | some raw =>
      if raw = "" then .ok true
      else
        match pyIntParse raw with
        | none => .error (.policyParse "Invalid value for maximum allowed replicas")
        | some m => .ok (decide (st.replicas < m))
  else .ok false

/-- Single-service daemon with autoscaling enabled and no maximum label. -/
def demoEnabled (r : Int) : Env :=
  mkEnv "web" ⟨[("swarm.autoscaler", "true")], r⟩

/-- Single-service daemon with autoscaling enabled and a maximum label. -/
def demoBounded (mx : String) (r : Int) : Env :=
  mkEnv "web" ⟨[("swarm.autoscaler", "true"), ("swarm.autoscaler.maximum", mx)], r⟩

/-- Single-service daemon whose enable label is not the string true. -/
def demoDisabled : Env :=
  mkEnv "web" ⟨[("swarm.autoscaler", "yes"), ("swarm.autoscaler.maximum", "oops")], 2⟩

theorem canAutoscale_run (env : Env) (svc : String) (st : ServiceState)
    (hsvc : ¬ svc = "") (henv : env svc = some st) :
    (canAutoscale env svc).1 = decideScale st ∧
    ∀ e ∈ (canAutoscale env svc).2, e.isWrite = false := by
  unfold canAutoscale getServiceLabels decideScale
  rw [if_neg hsvc, if_neg hsvc, henv]
  simp only []
  split
  · split
    · simp [Ev.isWrite]
    · split
      · simp [Ev.isWrite]
      · split
        · simp [Ev.isWrite]
        · simp [Ev.isWrite]
  · simp [Ev.isWrite]

theorem scaleService_run (env : Env) (svc : String) (st : ServiceState) (r : Int)
    (hsvc : ¬ svc = "") (henv : env svc = some st) (hr : ¬ r = 0) :
    (scaleService env svc r).result = decideScale st ∧
    (scaleService env svc r).env =
      (if decideScale st = .ok true then setReplicas env svc r else env) ∧
    (scaleService env svc r).trace.filter Ev.isWrite =
      (if decideScale st = .ok true then [Ev.writeReplicas svc r] else []) := by
  obtain ⟨hfst, htr⟩ := canAutoscale_run env svc st hsvc henv
  unfold scaleService
  rw [if_neg hsvc, if_neg hr]
  rcases hp : canAutoscale env svc with ⟨res, tr⟩
  rw [hp] at hfst htr
  simp only at hfst htr
  rcases res with e | b
  · rw [← hfst]
    refine ⟨rfl, ?_, ?_⟩
    · rw [if_neg (by simp)]
    · rw [if_neg (by simp), List.filter_eq_nil_iff]
      intro e he
      simp [htr e he]
  · rcases b with _ | _
    · rw [← hfst]
      refine ⟨rfl, ?_, ?_⟩
      · rw [if_neg (by simp)]
      · rw [if_neg (by simp), List.filter_eq_nil_iff]
        intro e he
        simp [htr e he]
    · rw [← hfst, henv]
      refine ⟨rfl, ?_, ?_⟩
      · rw [if_pos rfl]
      · rw [if_pos rfl, List.filter_append, List.filter_eq_nil_iff.mpr ?_]
        · simp [Ev.isWrite]
        · intro e he
          simp [htr e he]

theorem scaleService_empty (env : Env) (r : Int) :
    scaleService env "" r = ⟨.error (.invalidInput "Service name not provided"), env, []⟩ := rfl

theorem scaleService_zero (env : Env) (svc : String) (hsvc : ¬ svc = "") :
    scaleService env svc 0 = ⟨.error (.invalidInput "Number of replicas not provided"), env, []⟩ := by
  unfold scaleService
  rw [if_neg hsvc, if_pos rfl]

theorem scaleService_notFound (env : Env) (svc : String) (r : Int)
    (hsvc : ¬ svc = "") (hr : ¬ r = 0) (henv : env svc = none) :
    scaleService env svc r = ⟨.error .notFound, env, [.getService svc]⟩ := by
  unfold scaleService canAutoscale getServiceLabels
  rw [if_neg hsvc, if_neg hr, if_neg hsvc, if_neg hsvc, henv]

theorem scaleServiceLinear_empty (env : Env) (act : String) :
    scaleServiceLinear env "" act = ⟨.error (.invalidInput "Service name not provided"), env, []⟩ := rfl

theorem scaleServiceLinear_noAction (env : Env) (svc : String) (hsvc : ¬ svc = "") :
    scaleServiceLinear env svc "" = ⟨.error (.invalidInput "Scaling action not provided"), env, []⟩ := by
  unfold scaleServiceLinear
  rw [if_neg hsvc, if_pos rfl]

theorem scaleServiceLinear_up_run (env : Env) (svc : String) (st : ServiceState)
    (hsvc : ¬ svc = "") (henv : env svc = some st) :
    scaleServiceLinear env svc "up" =
      ⟨(scaleService env svc (st.replicas + 1)).result,
       (scaleService env svc (st.replicas + 1)).env,
       .getService svc :: (scaleService env svc (st.replicas + 1)).trace⟩ := by
  unfold scaleServiceLinear
  rw [if_neg hsvc, if_neg (by decide), henv]
  rfl

theorem scaleServiceLinear_down_run (env : Env) (svc : String) (st : ServiceState)
    (hsvc : ¬ svc = "") (henv : env svc = some st) :
    scaleServiceLinear env svc "down" =
      ⟨(scaleService env svc (st.replicas - 1)).result,
       (scaleService env svc (st.replicas - 1)).env,
       .getService svc :: (scaleService env svc (st.replicas - 1)).trace⟩ := by
  unfold scaleServiceLinear
  rw [if_neg hsvc, if_neg (by decide), henv]
  rfl

theorem scaleServiceLinear_invalid (env : Env) (svc : String) (st : ServiceState) (act : String)
    (hsvc : ¬ svc = "") (hact : ¬ act = "") (henv : env svc = some st)
    (hup : ¬ act = "up") (hdn : ¬ act = "down") :
    scaleServiceLinear env svc act = ⟨.error (.invalidInput "Invalid scaling action"), env, [.getService svc]⟩ := by
  unfold scaleServiceLinear
  rw [if_neg hsvc, if_neg hact, henv]
  simp only []
  rw [if_neg hup, if_neg hdn]

theorem scaleServiceLinear_notFound (env : Env) (svc act : String)
    (hsvc : ¬ svc = "") (hact : ¬ act = "") (henv : env svc = none) :
    scaleServiceLinear env svc act = ⟨.error .notFound, env, [.getService svc]⟩ := by
  unfold scaleServiceLinear
  rw [if_neg hsvc, if_neg hact, henv]

theorem setReplicas_at (env : Env) (svc : String) (st : ServiceState) (r : Int)
    (henv : env svc = some st) :
    setReplicas env svc r svc = some { st with replicas := r } := by
  simp [setReplicas, henv]

/-- C1: for every enabled policy whose maximum label parses as an integer m
and every current replica count, can_autoscale returns permitted exactly
when the current count is strictly below m, returns a clean denial when
the count is at or above m, and raises no error in either case. -/
theorem claim1_bound_check (env : Env) (svc : String) (st : ServiceState) (raw : String) (m : Int)
    (hsvc : ¬ svc = "") (henv : env svc = some st)
    (hen : st.labels.lookup "swarm.autoscaler" = some "true")
    (hmax : st.labels.lookup "swarm.autoscaler.maximum" = some raw)
    (hparse : pyIntParse raw = some m) :
    (canAutoscale env svc).1 = .ok (decide (st.replicas < m)) := by
  have hne : ¬ raw = "" := by
    intro h
    rw [h] at hparse
    have h0 : pyIntParse "" = none := rfl
    rw [h0] at hparse
    cases hparse
  rw [(canAutoscale_run env svc st hsvc henv).1]
  unfold decideScale
  rw [if_pos hen, hmax]
  simp only []
  rw [if_neg hne, hparse]

theorem claim1_bound_check_witness :
    (canAutoscale (demoBounded "5" 3) "web").1 = .ok (decide ((3 : Int) < 5)) :=
  claim1_bound_check (demoBounded "5" 3) "web" ⟨[("swarm.autoscaler", "true"), ("swarm.autoscaler.maximum", "5")], 3⟩
    "5" 5 (by decide) rfl rfl rfl rfl

/-- C4: for every annotation map in which swarm.autoscaler is absent or
differs from the exact string true, can_autoscale returns false without
raising, even when the maximum label is malformed, and scale_service
never writes and leaves the daemon untouched. -/
theorem claim4_disabled_denies (env : Env) (svc : String) (st : ServiceState)
    (hsvc : ¬ svc = "") (henv : env svc = some st)
    (hdis : ¬ st.labels.lookup "swarm.autoscaler" = some "true") :
    (canAutoscale env svc).1 = .ok false ∧
    ∀ r : Int, (scaleService env svc r).env = env ∧
      ∀ e ∈ (scaleService env svc r).trace, e.isWrite = false := by
  have hfst := (canAutoscale_run env svc st hsvc henv).1
  have hdec : decideScale st = .ok false := by
    unfold decideScale
    rw [if_neg hdis]
  refine ⟨by rw [hfst, hdec], ?_⟩
  intro r
  by_cases hr : r = 0
  · subst hr
    rw [scaleService_zero env svc hsvc]
    exact ⟨rfl, by simp⟩
  · obtain ⟨-, henv1, htr⟩ := scaleService_run env svc st r hsvc henv hr
    rw [if_neg (by rw [hdec]; simp)] at henv1 htr
    refine ⟨henv1, ?_⟩
    intro e he
    have := List.filter_eq_nil_iff.mp htr e he
    simpa using this

theorem claim4_disabled_denies_witness :
    (canAutoscale demoDisabled "web").1 = .ok false ∧
    ∀ r : Int, (scaleService demoDisabled "web" r).env = demoDisabled ∧
      ∀ e ∈ (scaleService demoDisabled "web" r).trace, e.isWrite = false :=
  claim4_disabled_denies demoDisabled "web"
    ⟨[("swarm.autoscaler", "yes"), ("swarm.autoscaler.maximum", "oops")], 2⟩
    (by decide) rfl (by decide)

/-- C6: for every enabled policy whose maximum label is absent or the
empty string, can_autoscale returns permitted for every current replica
count at or above zero. -/
theorem claim6_unbounded_permitted (env : Env) (svc : String) (st : ServiceState)
    (hsvc : ¬ svc = "") (henv : env svc = some st)
    (_hc : 0 ≤ st.replicas)
    (hen : st.labels.lookup "swarm.autoscaler" = some "true")
    (hmax : st.labels.lookup "swarm.autoscaler.maximum" = none ∨
            st.labels.lookup "swarm.autoscaler.maximum" = some "") :
    (canAutoscale env svc).1 = .ok true := by
  rw [(canAutoscale_run env svc st hsvc henv).1]
  unfold decideScale
  rw [if_pos hen]
  rcases hmax with h1 | h1
  · rw [h1]
  · rw [h1]
    rfl

theorem claim6_unbounded_permitted_witness :
    (canAutoscale (demoEnabled 3) "web").1 = .ok true :=
  claim6_unbounded_permitted (demoEnabled 3) "web" ⟨[("swarm.autoscaler", "true")], 3⟩
    (by decide) rfl (by decide) rfl (Or.inl rfl)

/-- C5: every scale_service call that does not end in a successful scale,
whether a policy denial, a validation failure or a propagated error,
leaves the daemon state untouched and issues no replica-count write; the
single write happens only on the permitted path, with the requested
target. -/
theorem claim5_single_write (env : Env) (svc : String) (r : Int) :
    (¬ (scaleService env svc r).result = .ok true →
      (scaleService env svc r).env = env ∧
      ∀ e ∈ (scaleService env svc r).trace, e.isWrite = false) ∧
    ((scaleService env svc r).result = .ok true →
      (scaleService env svc r).trace.filter Ev.isWrite = [Ev.writeReplicas svc r]) := by
  by_cases hsvc : svc = ""
  · subst hsvc
    rw [scaleService_empty]
    exact ⟨fun _ => ⟨rfl, by simp⟩, fun h => absurd h (by simp)⟩
  by_cases hr : r = 0
  · subst hr
    rw [scaleService_zero env svc hsvc]
    exact ⟨fun _ => ⟨rfl, by simp⟩, fun h => absurd h (by simp)⟩
  cases henv : env svc with
  | none =>
    rw [scaleService_notFound env svc r hsvc hr henv]
    exact ⟨fun _ => ⟨rfl, by simp [Ev.isWrite]⟩, fun h => absurd h (by simp)⟩
  | some st =>
    obtain ⟨hres, henv1, htr⟩ := scaleService_run env svc st r hsvc henv hr
    by_cases hd : decideScale st = .ok true
    · rw [if_pos hd] at henv1 htr
      refine ⟨fun h => absurd (by rw [hres, hd]) h, fun _ => htr⟩
    · rw [if_neg hd] at henv1 htr
      refine ⟨fun _ => ⟨henv1, ?_⟩, fun h => absurd (hres ▸ h) hd⟩
      intro e he
      simpa using List.filter_eq_nil_iff.mp htr e he

theorem claim5_single_write_witness :
    (scaleService (demoBounded "5" 5) "web" 9).env = demoBounded "5" 5 ∧
    ∀ e ∈ (scaleService (demoBounded "5" 5) "web" 9).trace, e.isWrite = false :=
  (claim5_single_write (demoBounded "5" 5) "web" 9).1 (by decide)

/-- C8: scale_service is idempotent for a fixed service and target with
no intervening external change: running it a second time from the state
the first call produced leaves the same final replica count. -/
theorem claim8_scaleTo_idempotent (env : Env) (svc : String) (r : Int) :
    replicasOf (scaleService (scaleService env svc r).env svc r).env svc =
    replicasOf (scaleService env svc r).env svc := by
  by_cases hsvc : svc = ""
  · subst hsvc
    rw [scaleService_empty, scaleService_empty]
  by_cases hr : r = 0
  · subst hr
    rw [scaleService_zero env svc hsvc, scaleService_zero env svc hsvc]
  cases henv : env svc with
  | none =>
    rw [scaleService_notFound env svc r hsvc hr henv,
        scaleService_notFound env svc r hsvc hr henv]
  | some st =>
    obtain ⟨-, henv1, -⟩ := scaleService_run env svc st r hsvc henv hr
    by_cases hd : decideScale st = .ok true
    · rw [if_pos hd] at henv1
      have henv1at : (scaleService env svc r).env svc = some { st with replicas := r } := by
        rw [henv1]
        exact setReplicas_at env svc st r henv
      obtain ⟨-, henv2, -⟩ :=
        scaleService_run (scaleService env svc r).env svc { st with replicas := r } r hsvc henv1at hr
      by_cases hd2 : decideScale { st with replicas := r } = .ok true
      · rw [if_pos hd2] at henv2
        rw [replicasOf, replicasOf, henv2,
            setReplicas_at (scaleService env svc r).env svc { st with replicas := r } r henv1at,
            henv1at]
      · rw [if_neg hd2] at henv2
        rw [henv2]
    · rw [if_neg hd] at henv1
      rw [henv1, henv1]

/-- C2 counterexample: with autoscaling enabled and the maximum label set
to the string -1, the label is present, non-empty and not a valid
non-negative integer, yet the evaluation raises nothing: Python int
accepts the sign, producing the negative bound -1, and can_autoscale
returns a clean denial instead of a PolicyParseError. -/
theorem claim2_counterexample :
    pyIntParse "-1" = some (-1) ∧ ((-1 : Int) < 0) ∧
    (canAutoscale (demoBounded "-1" 0) "web").1 = .ok false :=
  ⟨rfl, by decide, rfl⟩

/-- C2 (amended): for an enabled policy, the permission evaluation fails
with PolicyParseError exactly when the maximum-replica label is present,
non-empty, and not a valid integer in Python int syntax, a class that
includes negative values; and when it so fails, scale_service performs no
replica-count write and leaves the daemon unchanged. -/
theorem claim2_parse_error_iff (env : Env) (svc : String) (st : ServiceState)
    (hsvc : ¬ svc = "") (henv : env svc = some st)
    (hen : st.labels.lookup "swarm.autoscaler" = some "true") :
    ((∃ msg, (canAutoscale env svc).1 = .error (.policyParse msg)) ↔
      ∃ raw, st.labels.lookup "swarm.autoscaler.maximum" = some raw ∧
        ¬ raw = "" ∧ pyIntParse raw = none) ∧
    ((∃ msg, (canAutoscale env svc).1 = .error (.policyParse msg)) →
      ∀ r : Int, (scaleService env svc r).env = env ∧
        ∀ e ∈ (scaleService env svc r).trace, e.isWrite = false) := by
  have hfst := (canAutoscale_run env svc st hsvc henv).1
  constructor
  · rw [hfst]
    unfold decideScale
    rw [if_pos hen]
    cases hmax : st.labels.lookup "swarm.autoscaler.maximum" with
    | none => simp
    | some raw =>
      by_cases hraw : raw = ""
      · subst hraw
        simp
      · cases hp : pyIntParse raw with
        | none => simp [hraw, hp]
        | some m => simp [hraw, hp]
  · intro herr r
    have hne : ¬ decideScale st = .ok true := by
      obtain ⟨msg, hmsg⟩ := herr
      rw [hfst] at hmsg
      rw [hmsg]
      simp
    by_cases hr : r = 0
    · subst hr
      rw [scaleService_zero env svc hsvc]
      exact ⟨rfl, by simp⟩
    · obtain ⟨-, henv1, htr⟩ := scaleService_run env svc st r hsvc henv hr
      rw [if_neg hne] at henv1 htr
      exact ⟨henv1, fun e he => by simpa using List.filter_eq_nil_iff.mp htr e he⟩

theorem claim2_parse_error_iff_witness :
    ((∃ msg, (canAutoscale (demoBounded "abc" 1) "web").1 = .error (.policyParse msg)) ↔
      ∃ raw, ([("swarm.autoscaler", "true"), ("swarm.autoscaler.maximum", "abc")] :
          List (String × String)).lookup "swarm.autoscaler.maximum" = some raw ∧
        ¬ raw = "" ∧ pyIntParse raw = none) ∧
    ((∃ msg, (canAutoscale (demoBounded "abc" 1) "web").1 = .error (.policyParse msg)) →
      ∀ r : Int, (scaleService (demoBounded "abc" 1) "web" r).env = demoBounded "abc" 1 ∧
        ∀ e ∈ (scaleService (demoBounded "abc" 1) "web" r).trace, e.isWrite = false) :=
  claim2_parse_error_iff (demoBounded "abc" 1) "web"
    ⟨[("swarm.autoscaler", "true"), ("swarm.autoscaler.maximum", "abc")], 1⟩
    (by decide) rfl rfl

/-- C3 counterexample: scale_service_linear with the invalid direction
left on an existing service raises the invalid-action error, yet its
trace already holds a read of the service: the check runs only after I/O
against the daemon, contradicting detection before any I/O. -/
theorem claim3_counterexample :
    (scaleServiceLinear (demoEnabled 3) "web" "left").result
      = .error (.invalidInput "Invalid scaling action") ∧
    (scaleServiceLinear (demoEnabled 3) "web" "left").trace = [.getService "web"] :=
  ⟨rfl, rfl⟩

/-- C3 (amended): a missing or empty workload reference, a zero target
replica count, and an empty direction are each detected before any I/O,
with an InvalidInputError and an empty trace; a non-empty direction
outside up and down is detected only after the current service has been
read, though still with an InvalidInputError, no write and no state
change. -/
theorem claim3_validation_order (env : Env) :
    (∀ r : Int, (scaleService env "" r).trace = [] ∧
      ∃ msg, (scaleService env "" r).result = .error (.invalidInput msg)) ∧
    (∀ svc : String, (scaleService env svc 0).trace = [] ∧
      ∃ msg, (scaleService env svc 0).result = .error (.invalidInput msg)) ∧
    (∀ act : String, (scaleServiceLinear env "" act).trace = [] ∧
      ∃ msg, (scaleServiceLinear env "" act).result = .error (.invalidInput msg)) ∧
    (∀ svc : String, ¬ svc = "" → (scaleServiceLinear env svc "").trace = [] ∧
      ∃ msg, (scaleServiceLinear env svc "").result = .error (.invalidInput msg)) ∧
    (∀ svc : String, ∀ st : ServiceState, ∀ act : String,
      ¬ svc = "" → ¬ act = "" → env svc = some st → ¬ act = "up" → ¬ act = "down" →
      (scaleServiceLinear env svc act).result = .error (.invalidInput "Invalid scaling action") ∧
      (scaleServiceLinear env svc act).env = env ∧
      ∀ e ∈ (scaleServiceLinear env svc act).trace, e.isWrite = false) := by
  refine ⟨?_, ?_, ?_, ?_, ?_⟩
  · intro r
    rw [scaleService_empty]
    exact ⟨rfl, "Service name not provided", rfl⟩
  · intro svc
    by_cases hsvc : svc = ""
    · subst hsvc
      rw [scaleService_empty]
      exact ⟨rfl, "Service name not provided", rfl⟩
    · rw [scaleService_zero env svc hsvc]
      exact ⟨rfl, "Number of replicas not provided", rfl⟩
  · intro act
    rw [scaleServiceLinear_empty]
    exact ⟨rfl, "Service name not provided", rfl⟩
  · intro svc hsvc
    rw [scaleServiceLinear_noAction env svc hsvc]
    exact ⟨rfl, "Scaling action not provided", rfl⟩
  · intro svc st act hsvc hact henv hup hdn
    rw [scaleServiceLinear_invalid env svc st act hsvc hact henv hup hdn]
    exact ⟨rfl, rfl, by simp [Ev.isWrite]⟩

theorem claim3_validation_order_witness :
    (scaleServiceLinear (demoEnabled 3) "web" "left").env = demoEnabled 3 :=
  ((claim3_validation_order (demoEnabled 3)).2.2.2.2 "web" ⟨[("swarm.autoscaler", "true")], 3⟩
    "left" (by decide) (by decide) rfl (by decide) (by decide)).2.1

/-- C7 counterexample: starting from 0 replicas with an enabled unbounded
policy, the policy permits both steps, the up step succeeds and scales to
1, yet the immediate down step raises the missing-replicas error, because
its computed target 0 is falsy, and leaves the count at 1 instead of
returning it to 0. -/
theorem claim7_counterexample :
    (canAutoscale (demoEnabled 0) "web").1 = .ok true ∧
    (scaleServiceLinear (demoEnabled 0) "web" "up").result = .ok true ∧
    (canAutoscale (scaleServiceLinear (demoEnabled 0) "web" "up").env "web").1 = .ok true ∧
    (scaleServiceLinear (scaleServiceLinear (demoEnabled 0) "web" "up").env "web" "down").result
      = .error (.invalidInput "Number of replicas not provided") ∧
    replicasOf (scaleServiceLinear (scaleServiceLinear (demoEnabled 0) "web" "up").env
      "web" "down").env "web" = some 1 :=
  ⟨rfl, rfl, rfl, rfl, rfl⟩

/-- C7 (amended): for every workload whose original replica count is at
least 1, step up followed immediately by step down with no intervening
external change returns the replica count to its original value, provided
the policy permits each step at the moment it runs; from 0 the round trip
is impossible, the down step rejecting its computed target 0 as missing. -/
theorem claim7_up_down_roundtrip (env : Env) (svc : String) (st : ServiceState)
    (hsvc : ¬ svc = "") (henv : env svc = some st) (hpos : 1 ≤ st.replicas)
    (hp1 : (canAutoscale env svc).1 = .ok true)
    (hp2 : (canAutoscale (scaleServiceLinear env svc "up").env svc).1 = .ok true) :
    replicasOf (scaleServiceLinear (scaleServiceLinear env svc "up").env svc "down").env svc
      = some st.replicas := by
  have hd1 : decideScale st = .ok true := by
    rw [(canAutoscale_run env svc st hsvc henv).1] at hp1
    exact hp1
  have hup := scaleServiceLinear_up_run env svc st hsvc henv
  have hr1 : ¬ st.replicas + 1 = 0 := by omega
  obtain ⟨-, henv1, -⟩ := scaleService_run env svc st (st.replicas + 1) hsvc henv hr1
  rw [if_pos hd1] at henv1
  have hupenv : (scaleServiceLinear env svc "up").env = setReplicas env svc (st.replicas + 1) := by
    rw [hup]
    exact henv1
  have henv1at : (scaleServiceLinear env svc "up").env svc
      = some { st with replicas := st.replicas + 1 } := by
    rw [hupenv]
    exact setReplicas_at env svc st (st.replicas + 1) henv
  have hd2 : decideScale { st with replicas := st.replicas + 1 } = .ok true := by
    rw [(canAutoscale_run _ svc _ hsvc henv1at).1] at hp2
    exact hp2
  have hdn := scaleServiceLinear_down_run (scaleServiceLinear env svc "up").env svc
    { st with replicas := st.replicas + 1 } hsvc henv1at
  have hstep : ({ st with replicas := st.replicas + 1 } : ServiceState).replicas - 1
      = st.replicas := by
    simp
  have hr2 : ¬ ({ st with replicas := st.replicas + 1 } : ServiceState).replicas - 1 = 0 := by
    rw [hstep]
    omega
  obtain ⟨-, henv2, -⟩ := scaleService_run (scaleServiceLinear env svc "up").env svc
    { st with replicas := st.replicas + 1 }
    (({ st with replicas := st.replicas + 1 } : ServiceState).replicas - 1) hsvc henv1at hr2
  rw [if_pos hd2] at henv2
  rw [hdn]
  show replicasOf (scaleService (scaleServiceLinear env svc "up").env svc
    (({ st with replicas := st.replicas + 1 } : ServiceState).replicas - 1)).env svc = some st.replicas
  rw [henv2]
  unfold replicasOf
  rw [setReplicas_at _ svc { st with replicas := st.replicas + 1 } _ henv1at]
  rw [hstep]
  rfl

theorem claim7_up_down_roundtrip_witness :
    replicasOf (scaleServiceLinear (scaleServiceLinear (demoEnabled 1) "web" "up").env
      "web" "down").env "web" = some 1 :=
  claim7_up_down_roundtrip (demoEnabled 1) "web" ⟨[("swarm.autoscaler", "true")], 1⟩
    (by decide) rfl (by decide) rfl rfl

/-- C9: for every workload currently at exactly 1 replica, step down
computes the target 0, which the absolute-mode falsy check treats as not
provided and rejects with the missing-replicas InvalidInputError before
any write, leaving the daemon untouched; and in general a successful down
step never leaves a workload at 0 replicas. -/
theorem claim9_down_from_one (env : Env) (svc : String) (st : ServiceState)
    (hsvc : ¬ svc = "") (henv : env svc = some st) (h1 : st.replicas = 1) :
    (scaleServiceLinear env svc "down").result
      = .error (.invalidInput "Number of replicas not provided") ∧
    (scaleServiceLinear env svc "down").env = env ∧
    (∀ e ∈ (scaleServiceLinear env svc "down").trace, e.isWrite = false) ∧
    ∀ env2 : Env, ∀ svc2 : String,
      (scaleServiceLinear env2 svc2 "down").result = .ok true →
      ¬ replicasOf (scaleServiceLinear env2 svc2 "down").env svc2 = some 0 := by
  have hdn := scaleServiceLinear_down_run env svc st hsvc henv
  have hz : st.replicas - 1 = 0 := by omega
  rw [hdn, hz, scaleService_zero env svc hsvc]
  refine ⟨rfl, rfl, by simp [Ev.isWrite], ?_⟩
  intro env2 svc2 hok
  by_cases hsvc2 : svc2 = ""
  · subst hsvc2
    rw [scaleServiceLinear_empty] at hok
    cases hok
  cases henv2 : env2 svc2 with
  | none =>
    rw [scaleServiceLinear_notFound env2 svc2 "down" hsvc2 (by decide) henv2] at hok
    cases hok
  | some st2 =>
    have hdn2 := scaleServiceLinear_down_run env2 svc2 st2 hsvc2 henv2
    rw [hdn2] at hok ⊢
    by_cases hz2 : st2.replicas - 1 = 0
    · rw [hz2, scaleService_zero env2 svc2 hsvc2] at hok
      cases hok
    · obtain ⟨hres2, henv2e, -⟩ :=
        scaleService_run env2 svc2 st2 (st2.replicas - 1) hsvc2 henv2 hz2
      have hok2 : (scaleService env2 svc2 (st2.replicas - 1)).result = .ok true := hok
      have hd2 : decideScale st2 = .ok true := by
        rw [← hres2]
        exact hok2
      rw [if_pos hd2] at henv2e
      show ¬ replicasOf (scaleService env2 svc2 (st2.replicas - 1)).env svc2 = some 0
      rw [henv2e]
      unfold replicasOf
      rw [setReplicas_at env2 svc2 st2 _ henv2]
      intro hcon
      apply hz2
      simpa using hcon

theorem claim9_down_from_one_witness :
    (scaleServiceLinear (demoEnabled 1) "web" "down").result
      = .error (.invalidInput "Number of replicas not provided") :=
  (claim9_down_from_one (demoEnabled 1) "web" ⟨[("swarm.autoscaler", "true")], 1⟩
    (by decide) rfl rfl).1

/-- C10: for every workload currently at 0 replicas, step down computes
the target -1, which is nonzero and so passes the falsy validation, and
when the policy permits, the replica-count write is issued with the
negative target -1: no guard before the write rejects negative targets. -/
theorem claim10_down_from_zero (env : Env) (svc : String) (st : ServiceState)
    (hsvc : ¬ svc = "") (henv : env svc = some st) (h0 : st.replicas = 0)
    (hperm : (canAutoscale env svc).1 = .ok true) :
    (scaleServiceLinear env svc "down").result = .ok true ∧
    Ev.writeReplicas svc (-1) ∈ (scaleServiceLinear env svc "down").trace ∧
    replicasOf (scaleServiceLinear env svc "down").env svc = some (-1) := by
  have hd : decideScale st = .ok true := by
    rw [(canAutoscale_run env svc st hsvc henv).1] at hperm
    exact hperm
  have hdn := scaleServiceLinear_down_run env svc st hsvc henv
  have hm1 : st.replicas - 1 = -1 := by omega
  rw [hdn, hm1]
  obtain ⟨hres, henvw, htr⟩ := scaleService_run env svc st (-1) hsvc henv (by decide)
  rw [if_pos hd] at henvw htr
  refine ⟨?_, ?_, ?_⟩
  · show (scaleService env svc (-1)).result = .ok true
    rw [hres, hd]
  · show Ev.writeReplicas svc (-1) ∈ Ev.getService svc :: (scaleService env svc (-1)).trace
    exact List.mem_cons_of_mem _
      (List.mem_of_mem_filter (p := Ev.isWrite) (by rw [htr]; exact List.mem_singleton_self _))
  · show replicasOf (scaleService env svc (-1)).env svc = some (-1)
    rw [henvw]
    unfold replicasOf
    rw [setReplicas_at env svc st (-1) henv]
    rfl

theorem claim10_down_from_zero_witness :
    (scaleServiceLinear (demoEnabled 0) "web" "down").result = .ok true ∧
    Ev.writeReplicas "web" (-1) ∈ (scaleServiceLinear (demoEnabled 0) "web" "down").trace ∧
    replicasOf (scaleServiceLinear (demoEnabled 0) "web" "down").env "web" = some (-1) :=
  claim10_down_from_zero (demoEnabled 0) "web" ⟨[("swarm.autoscaler", "true")], 0⟩
    (by decide) rfl rfl rfl

end SwarmAutoscale
